import Mathlib

/-!
Verification of the DockStack orchestration core (src/config/mod.rs,
src/docker/compose.rs, src/docker/manager.rs) against its specification.
The Rust code is shallowly embedded: hash maps become association lists,
YAML mappings become association lists preserving insertion order with
replace-in-place semantics (matching the IndexMap used by serde_yaml),
the filesystem becomes an explicit path-to-content map, and each
supervisor operation becomes a pure state transformer parameterised by
the outcome of the external command it spawns.
-/

/-- Embeds ServiceConfig from src/config/mod.rs (lines 40-55). -/
structure ServiceConfig where
  enabled : Bool
  port : Nat
  version : String
  display_name : Option String
  image : Option String
  is_custom : Bool
  is_locked : Bool
  env_vars : List (String × String)
  settings : List (String × String)
deriving Repr, DecidableEq

/-- Embeds ProjectConfig from src/config/mod.rs (lines 29-38).
The services hash map is an association list; key order is irrelevant
to every property proved below. -/
structure ProjectConfig where
  id : String
  name : String
  directory : String
  services : List (String × ServiceConfig)
  ssl_enabled : Bool
  custom_ports : List (String × Nat)
  domain : String
deriving Repr, DecidableEq

/-- Embeds serde_yaml::Value as used by compose.rs: only strings,
numbers, sequences and string-keyed mappings are ever built. -/
inductive Yaml where
  | str (s : String)
  | num (n : Nat)
  | seq (items : List Yaml)
  | map (entries : List (String × Yaml))
deriving Repr

abbrev YamlMap := List (String × Yaml)

/-- serde_yaml::Mapping::insert backed by IndexMap: an existing key has
its value replaced in place, a fresh key is appended at the end. -/
def mapInsert : YamlMap → String → Yaml → YamlMap
  | [], k, v => [(k, v)]
  | (k2, v2) :: t, k, v =>
      if k2 = k then (k, v) :: t else (k2, v2) :: mapInsert t k v

/-- Mapping lookup (first, hence unique, occurrence of the key). -/
def ymGet : YamlMap → String → Option Yaml
  | [], _ => none
  | (k2, v) :: t, k => if k2 = k then some v else ymGet t k

/-- y_str from compose.rs (line 463). -/
def y_str (s : String) : Yaml := Yaml.str s

/-- Inserts the pairs of a Rust HashMap iteration into a YAML mapping,
as the env-var loops of compose.rs do. -/
def yamlOfPairs (base : YamlMap) (pairs : List (String × String)) : YamlMap :=
  pairs.foldl (fun m kv => mapInsert m kv.1 (y_str kv.2)) base

/-- healthcheck from compose.rs (lines 467-480). -/
def healthcheck (test : String) (interval timeout retries : Nat) : Yaml :=
  let hc := mapInsert [] "test" (Yaml.seq [y_str "CMD-SHELL", y_str test])
  let hc := mapInsert hc "interval" (y_str (toString interval ++ "s"))
  let hc := mapInsert hc "timeout" (y_str (toString timeout ++ "s"))
  let hc := mapInsert hc "retries" (Yaml.num retries)
  Yaml.map hc

/-- HashMap::get on the services map. -/
def services_get (services : List (String × ServiceConfig)) (k : String) :
    Option ServiceConfig :=
  (services.find? (fun kv => kv.1 = k)).map (fun kv => kv.2)

/-- project.services.get("mysql").map_or(false, |s| s.enabled)
from compose.rs line 160. -/
def mysql_dep_enabled (p : ProjectConfig) : Bool :=
  ((services_get p.services "mysql").map (fun s => s.enabled)).getD false

/-- project.services.get("postgresql").map_or(false, |s| s.enabled)
from compose.rs line 187. -/
def pg_dep_enabled (p : ProjectConfig) : Bool :=
  ((services_get p.services "postgresql").map (fun s => s.enabled)).getD false

/-- The body of each arm of the match in generate_compose
(compose.rs lines 21-234): for a known catalog key the emitted service
stanza, none for the synthetic "ssl" key and for unknown keys. -/
def service_stanza (p : ProjectConfig) (networkName : String)
    (name : String) (svc : ServiceConfig) : Option Yaml :=
  match name with
  | "postgresql" =>
      let s := mapInsert [] "image" (y_str ("postgres:" ++ svc.version))
      let s := mapInsert s "container_name"
        (y_str ("dockstack_" ++ p.id ++ "_postgres"))
      let s := mapInsert s "restart" (y_str "unless-stopped")
      let s := mapInsert s "environment" (Yaml.map (yamlOfPairs [] svc.env_vars))
      let s := mapInsert s "ports" (Yaml.seq [y_str (toString svc.port ++ ":5432")])
      let s := mapInsert s "volumes"
        (Yaml.seq [y_str "postgres_data:/var/lib/postgresql/data"])
      let s := mapInsert s "networks" (Yaml.seq [y_str networkName])
      let s := mapInsert s "healthcheck" (healthcheck "pg_isready -U postgres" 10 5 5)
      some (Yaml.map s)
  | "mysql" =>
      let s := mapInsert [] "image" (y_str ("mysql:" ++ svc.version))
      let s := mapInsert s "container_name"
        (y_str ("dockstack_" ++ p.id ++ "_mysql"))
      let s := mapInsert s "restart" (y_str "unless-stopped")
      let s := mapInsert s "environment" (Yaml.map (yamlOfPairs [] svc.env_vars))
      let s := mapInsert s "ports" (Yaml.seq [y_str (toString svc.port ++ ":3306")])
      let s := mapInsert s "volumes" (Yaml.seq [y_str "mysql_data:/var/lib/mysql"])
      let s := mapInsert s "networks" (Yaml.seq [y_str networkName])
      let s := mapInsert s "healthcheck"
        (healthcheck "mysqladmin ping -h localhost" 10 5 5)
      some (Yaml.map s)
  | "php" =>
      let s := mapInsert [] "image" (y_str ("php:" ++ svc.version))
      let s := mapInsert s "container_name"
        (y_str ("dockstack_" ++ p.id ++ "_php"))
      let s := mapInsert s "restart" (y_str "unless-stopped")
      let s := mapInsert s "volumes" (Yaml.seq
        [y_str (p.directory ++ "/www:/var/www/html"),
         y_str (p.directory ++ "/php/php.ini:/usr/local/etc/php/conf.d/dockstack.ini")])
      let s := mapInsert s "networks" (Yaml.seq [y_str networkName])
      some (Yaml.map s)
  | "apache" =>
      let s := mapInsert [] "image" (y_str ("httpd:" ++ svc.version))
      let s := mapInsert s "container_name"
        (y_str ("dockstack_" ++ p.id ++ "_apache"))
      let s := mapInsert s "restart" (y_str "unless-stopped")
      let s := mapInsert s "ports" (Yaml.seq [y_str (toString svc.port ++ ":80")])
      let s := mapInsert s "volumes" (Yaml.seq
        [y_str (p.directory ++ "/www:/usr/local/apache2/htdocs/"),
         y_str "./apache/httpd.conf:/usr/local/apache2/conf/httpd.conf"])
      let s := mapInsert s "networks" (Yaml.seq [y_str networkName])
      some (Yaml.map s)
  | "nginx" =>
      let s := mapInsert [] "image" (y_str ("nginx:" ++ svc.version))
      let s := mapInsert s "container_name"
        (y_str ("dockstack_" ++ p.id ++ "_nginx"))
      let s := mapInsert s "restart" (y_str "unless-stopped")
      let ports := [y_str (toString svc.port ++ ":80")]
      let ports := if p.ssl_enabled then ports ++ [y_str "443:443"] else ports
      let s := mapInsert s "ports" (Yaml.seq ports)
      let vols :=
        [y_str (p.directory ++ "/www:/usr/share/nginx/html"),
         y_str "./nginx/default.conf:/etc/nginx/conf.d/default.conf"]
      let vols := if p.ssl_enabled then vols ++ [y_str "./certs:/etc/nginx/certs:ro"]
        else vols
      let s := mapInsert s "volumes" (Yaml.seq vols)
      let s := mapInsert s "networks" (Yaml.seq [y_str networkName])
      some (Yaml.map s)
  | "phpmyadmin" =>
      let s := mapInsert [] "image" (y_str ("phpmyadmin:" ++ svc.version))
      let s := mapInsert s "container_name"
        (y_str ("dockstack_" ++ p.id ++ "_phpmyadmin"))
      let s := mapInsert s "restart" (y_str "unless-stopped")
      let env := mapInsert [] "PMA_HOST" (y_str "mysql")
      let env := mapInsert env "PMA_ARBITRARY" (y_str "1")
      let s := mapInsert s "environment" (Yaml.map (yamlOfPairs env svc.env_vars))
      let s := mapInsert s "ports" (Yaml.seq [y_str (toString svc.port ++ ":80")])
      let s := mapInsert s "networks" (Yaml.seq [y_str networkName])
      let s := if mysql_dep_enabled p then
          mapInsert s "depends_on" (Yaml.seq [y_str "mysql"])
        else s
      some (Yaml.map s)
  | "pgadmin" =>
      let s := mapInsert [] "image" (y_str ("dpage/pgadmin4:" ++ svc.version))
      let s := mapInsert s "container_name"
        (y_str ("dockstack_" ++ p.id ++ "_pgadmin"))
      let s := mapInsert s "restart" (y_str "unless-stopped")
      let s := mapInsert s "environment" (Yaml.map (yamlOfPairs [] svc.env_vars))
      let s := mapInsert s "ports" (Yaml.seq [y_str (toString svc.port ++ ":80")])
      let s := mapInsert s "volumes" (Yaml.seq [y_str "pgadmin_data:/var/lib/pgadmin"])
      let s := mapInsert s "networks" (Yaml.seq [y_str networkName])
      let s := if pg_dep_enabled p then
          mapInsert s "depends_on" (Yaml.seq [y_str "postgresql"])
        else s
      some (Yaml.map s)
  | "redis" =>
      let s := mapInsert [] "image" (y_str ("redis:" ++ svc.version))
      let s := mapInsert s "container_name"
        (y_str ("dockstack_" ++ p.id ++ "_redis"))
      let s := mapInsert s "restart" (y_str "unless-stopped")
      let s := mapInsert s "ports" (Yaml.seq [y_str (toString svc.port ++ ":6379")])
      let s := mapInsert s "volumes" (Yaml.seq [y_str "redis_data:/data"])
      let s := mapInsert s "networks" (Yaml.seq [y_str networkName])
      let s := mapInsert s "healthcheck" (healthcheck "redis-cli ping" 10 5 5)
      some (Yaml.map s)
  | "adminer" =>
      let s := mapInsert [] "image" (y_str ("adminer:" ++ svc.version))
      let s := mapInsert s "container_name"
        (y_str ("dockstack_" ++ p.id ++ "_adminer"))
      let s := mapInsert s "restart" (y_str "unless-stopped")
      let s := mapInsert s "ports" (Yaml.seq [y_str (toString svc.port ++ ":8080")])
      let s := mapInsert s "networks" (Yaml.seq [y_str networkName])
      some (Yaml.map s)
  | "ssl" => none
  | _ => none

/-- The named volumes each arm of generate_compose inserts into the
top-level volumes mapping (compose.rs lines 46, 72, 193, 213). -/
def service_volumes (name : String) : List String :=
  match name with
  | "postgresql" => ["postgres_data"]
  | "mysql" => ["mysql_data"]
  | "pgadmin" => ["pgadmin_data"]
  | "redis" => ["redis_data"]
  | _ => []

/-- One iteration of the service loop of generate_compose
(compose.rs lines 17-235): disabled services are skipped, enabled known
keys insert their stanza and named volumes. -/
def add_service (p : ProjectConfig) (networkName : String)
    (acc : YamlMap × YamlMap) (kv : String × ServiceConfig) : YamlMap × YamlMap :=
  if kv.2.enabled = false then acc
  else
    match service_stanza p networkName kv.1 kv.2 with
    | none => acc
    | some st =>
        (mapInsert acc.1 kv.1 st,
         (service_volumes kv.1).foldl (fun vm v => mapInsert vm v (Yaml.map [])) acc.2)

/-- generate_compose from compose.rs (lines 9-249), up to YAML textual
serialization: the function returns the structured document whose
serialization the Rust function writes. -/
def generate_compose (p : ProjectConfig) : Yaml :=
  let networkName := "dockstack_" ++ p.id
  let sv := p.services.foldl (add_service p networkName) ([], [])
  let netConf := mapInsert [] "driver" (y_str "bridge")
  let networks := mapInsert [] networkName (Yaml.map netConf)
  let root := mapInsert [] "services" (Yaml.map sv.1)
  let root := if sv.2.isEmpty then root else mapInsert root "volumes" (Yaml.map sv.2)
  let root := mapInsert root "networks" (Yaml.map networks)
  Yaml.map root

/-- The services section produced by the loop of generate_compose. -/
def compose_services (p : ProjectConfig) : YamlMap :=
  (p.services.foldl (add_service p ("dockstack_" ++ p.id)) ([], [])).1

/-- The stanza generate_compose emits for a given service key, read back
out of the generated document. -/
def compose_service_entry (p : ProjectConfig) (name : String) : Option Yaml :=
  match generate_compose p with
  | Yaml.map root =>
      match ymGet root "services" with
      | some (Yaml.map svcs) => ymGet svcs name
      | _ => none
  | _ => none

/-- Field access inside an optional stanza. -/
def stanza_field (st : Option Yaml) (k : String) : Option Yaml :=
  match st with
  | some (Yaml.map m) => ymGet m k
  | _ => none

/-- The fixed catalog of compose.rs: for each key that emits a stanza,
the image name hard-coded in its match arm. -/
def catalog_image (name : String) : Option String :=
  if name = "postgresql" then some "postgres"
  else if name = "mysql" then some "mysql"
  else if name = "php" then some "php"
  else if name = "apache" then some "httpd"
  else if name = "nginx" then some "nginx"
  else if name = "phpmyadmin" then some "phpmyadmin"
  else if name = "pgadmin" then some "dpage/pgadmin4"
  else if name = "redis" then some "redis"
  else if name = "adminer" then some "adminer"
  else none


/-- Embeds ServiceStatus from src/docker/manager.rs (lines 11-18). -/
inductive ServiceStatus where
  | stopped
  | starting
  | running
  | stopping
  | error (detail : String)
deriving Repr, DecidableEq

/-- Embeds ContainerInfo from src/docker/manager.rs (lines 20-28). -/
structure ContainerInfo where
  id : String
  name : String
  image : String
  status : String
  ports : String
  state : String
deriving Repr, DecidableEq

/-- Embeds DockerEvent from src/docker/manager.rs (lines 30-37). -/
inductive DockerEvent where
  | log (s : String)
  | statusChange (scope : String) (st : ServiceStatus)
  | containerList (l : List ContainerInfo)
  | error (s : String)
  | dockerAvailable (b : Bool)
deriving Repr, DecidableEq

/-- The shared state owned by DockerManager (manager.rs lines 39-47):
status, rolling log buffer, container inventory and compose-dialect
flag, together with the sequence of events sent on event_tx. -/
structure ManagerState where
  status : ServiceStatus
  logs : List String
  containers : List ContainerInfo
  docker_available : Bool
  use_compose_plugin : Bool
  events : List DockerEvent
deriving Repr, DecidableEq

/-- logs.push_back(line) as performed directly by start_services
(manager.rs line 157 and others), stop_services and restart_services:
a plain append with no trimming. -/
def push_log (logs : List String) (line : String) : List String :=
  logs ++ [line]

/-- The append performed for each streamed line in stream_logs
(manager.rs lines 475-483): push_back followed by the batch trim that
drains down to 3000 entries once the buffer exceeds 5000. -/
def push_log_trimmed (logs : List String) (line : String) : List String :=
  let l := logs ++ [line]
  if l.length > 5000 then l.drop (l.length - 3000) else l

/-- Effect of one streamed stdout line in stream_logs (manager.rs
lines 474-484): trimmed push plus one Log event. -/
def stream_log_line (st : ManagerState) (line : String) : ManagerState :=
  { st with logs := push_log_trimmed st.logs line,
            events := st.events ++ [DockerEvent.log line] }

/-- The stderr streaming loops of start_services (manager.rs 152-160)
and stop_services (254-260): each line is pushed to the buffer and sent
as a Log event. -/
def push_lines (st : ManagerState) (lines : List String) : ManagerState :=
  lines.foldl
    (fun a line =>
      { a with logs := push_log a.logs line,
               events := a.events ++ [DockerEvent.log line] })
    st

/-- Outcome of a spawned external command whose stderr is streamed:
spawn can fail, wait can fail after streaming, or the process exits
with a success flag, its streamed stderr lines, and the display form
of its exit status. -/
inductive SpawnOutcome where
  | launchFailure (err : String)
  | waitFailure (stderrLines : List String) (err : String)
  | exited (success : Bool) (stderrLines : List String) (exitStr : String)
deriving Repr, DecidableEq

/-- Outcome of Command::output() as used by restart_services: captured
success flag and stderr text. -/
structure CmdOutput where
  success : Bool
  stderr : String
deriving Repr, DecidableEq

/-- The program chosen for the compose dialect (manager.rs 135-139). -/
def compose_program (plugin : Bool) : String :=
  if plugin then "docker" else "docker-compose"

/-- The argument vector of the compose up command (manager.rs 135-139). -/
def up_args (plugin : Bool) : List String :=
  if plugin then ["compose", "up", "-d", "--remove-orphans"]
  else ["up", "-d", "--remove-orphans"]

/-- Rust Debug formatting of a Vec of strings, as interpolated into the
combined failure log of start_services (manager.rs line 183). -/
def debug_args (l : List String) : String :=
  "[" ++ String.intercalate ", " (l.map (fun s => "\"" ++ s ++ "\"")) ++ "]"

/-- The message of start_services line 92. -/
def no_services_msg : String :=
  "No services enabled! Please enable at least one service in the Services tab."

/-- The combined diagnostic line built by start_services on a non-zero
exit (manager.rs lines 175-184): trimmed captured stderr, falling back
to the exit code, plus the attempted command. -/
def start_fail_combined (plugin : Bool) (lines : List String) (exitStr : String) :
    String :=
  let stderr_content := String.join (lines.map (fun l => l ++ "\n"))
  let error_detail :=
    if stderr_content.trim ≠ "" then stderr_content.trim
    else "Exit code: " ++ exitStr
  "[DockStack] Failed to start services: " ++ error_detail ++
    "\nCommand tried: " ++ compose_program plugin ++ " " ++ debug_args (up_args plugin)

/-- start_services from manager.rs (lines 89-216). The worker thread
body is sequenced after the caller part; the result of writing the
compose file and the outcome of the spawned up command are passed as
parameters standing for the environment. -/
def start_services (st : ManagerState) (p : ProjectConfig)
    (composeRes : Except String String) (outcome : SpawnOutcome) : ManagerState :=
  if (p.services.filter (fun kv => kv.2.enabled)).length = 0 then
    { st with status := ServiceStatus.error no_services_msg,
              events := st.events ++ [DockerEvent.error no_services_msg] }
  else
    let st1 := { st with
      status := ServiceStatus.starting,
      events := st.events ++
        [DockerEvent.statusChange "all" ServiceStatus.starting] }
    match composeRes with
    | Except.error e =>
        let msg := "[DockStack] Error writing compose file: " ++ e
        { st1 with status := ServiceStatus.error e,
                   events := st1.events ++ [DockerEvent.error msg] }
    | Except.ok path =>
        let m1 := "[DockStack] Compose file written: " ++ path
        let st2 := { st1 with
          logs := push_log st1.logs m1,
          events := st1.events ++ [DockerEvent.log m1] }
        let m2 := "[DockStack] Starting services..."
        let st3 := { st2 with
          logs := push_log st2.logs m2,
          events := st2.events ++ [DockerEvent.log m2] }
        let program := compose_program st.use_compose_plugin
        match outcome with
        | SpawnOutcome.launchFailure e =>
            let msg := "[DockStack] Failed to execute docker compose command (" ++
              program ++ "): " ++ e
            { st3 with logs := push_log st3.logs msg,
                       status := ServiceStatus.error "Exec error. Check Logs.",
                       events := st3.events ++ [DockerEvent.error msg] }
        | SpawnOutcome.waitFailure lines e =>
            let st4 := push_lines st3 lines
            let msg := "[DockStack] Failed to wait for docker process: " ++ e
            { st4 with logs := push_log st4.logs msg,
                       status := ServiceStatus.error "Process error. Check Logs.",
                       events := st4.events ++ [DockerEvent.error msg] }
        | SpawnOutcome.exited success lines exitStr =>
            let st4 := push_lines st3 lines
            if success then
              let msg := "[DockStack] Services started successfully"
              { st4 with status := ServiceStatus.running,
                         logs := push_log st4.logs msg,
                         events := st4.events ++
                           [DockerEvent.log msg,
                            DockerEvent.statusChange "all" ServiceStatus.running] }
            else
              let combined := start_fail_combined st.use_compose_plugin lines exitStr
              let st5 := { st4 with
                logs := push_log st4.logs combined,
                events := st4.events ++ [DockerEvent.log combined] }
              let short := "Failed to start. Check Logs tab."
              { st5 with status := ServiceStatus.error short,
                         events := st5.events ++ [DockerEvent.error short] }

/-- stop_services from manager.rs (lines 218-294), with the outcome of
the spawned down command passed as a parameter. -/
def stop_services (st : ManagerState) (p : ProjectConfig)
    (outcome : SpawnOutcome) : ManagerState :=
  let st1 := { st with
    status := ServiceStatus.stopping,
    events := st.events ++
      [DockerEvent.statusChange "all" ServiceStatus.stopping] }
  let m := "[DockStack] Stopping services..."
  let st2 := { st1 with
    logs := push_log st1.logs m,
    events := st1.events ++ [DockerEvent.log m] }
  match outcome with
  | SpawnOutcome.launchFailure e =>
      let msg := "[DockStack] Failed to stop docker compose: " ++ e
      { st2 with status := ServiceStatus.error msg,
                 events := st2.events ++ [DockerEvent.error msg] }
  | SpawnOutcome.waitFailure lines e =>
      let st3 := push_lines st2 lines
      let msg := "[DockStack] Wait error: " ++ e
      { st3 with status := ServiceStatus.error msg,
                 events := st3.events ++ [DockerEvent.error msg] }
  | SpawnOutcome.exited success lines exitStr =>
      let st3 := push_lines st2 lines
      if success then
        let msg := "[DockStack] Services stopped"
        { st3 with status := ServiceStatus.stopped,
                   logs := push_log st3.logs msg,
                   events := st3.events ++
                     [DockerEvent.log msg,
                      DockerEvent.statusChange "all" ServiceStatus.stopped] }
      else
        let msg := "[DockStack] docker compose down failed: " ++ exitStr
        { st3 with status := ServiceStatus.error msg,
                   events := st3.events ++ [DockerEvent.error msg] }

/-- stop_services_sync from manager.rs (lines 296-315): announces the
shutdown in the log buffer and event stream, then runs the down command
with inherited stdio and discards its result entirely. The res
parameter stands for the discarded outcome of cmd.status(). -/
def stop_services_sync (st : ManagerState) (p : ProjectConfig)
    (res : Except String Bool) : ManagerState :=
  let m := "[DockStack] Stopping services before exit..."
  { st with logs := push_log st.logs m,
            events := st.events ++ [DockerEvent.log m] }

/-- restart_services from manager.rs (lines 317-399): the outcomes of
the down command, the compose-file rewrite and the up command are
passed as parameters. Command::output() yields Except.error only when
the command fails to launch; a non-zero exit is an ok CmdOutput. -/
def restart_services (st : ManagerState) (p : ProjectConfig)
    (stopRes : Except String CmdOutput) (writeRes : Except String String)
    (startRes : Except String CmdOutput) : ManagerState :=
  let st1 := { st with status := ServiceStatus.stopping }
  let m := "[DockStack] Restarting services..."
  let st2 := { st1 with
    logs := push_log st1.logs m,
    events := st1.events ++ [DockerEvent.log m] }
  match stopRes with
  | Except.error e =>
      let msg := "[DockStack] Stop failed during restart: " ++ e
      { st2 with events := st2.events ++ [DockerEvent.error msg] }
  | Except.ok _ =>
      match writeRes with
      | Except.error e =>
          let msg := "[DockStack] Error writing compose file: " ++ e
          { st2 with events := st2.events ++ [DockerEvent.error msg] }
      | Except.ok _ =>
          let st3 := { st2 with status := ServiceStatus.starting }
          match startRes with
          | Except.ok out =>
              if out.success then
                let msg := "[DockStack] Services restarted successfully"
                { st3 with status := ServiceStatus.running,
                           logs := push_log st3.logs msg,
                           events := st3.events ++
                             [DockerEvent.log msg,
                              DockerEvent.statusChange "all" ServiceStatus.running] }
              else
                let msg := "[DockStack] Restart failed: " ++ out.stderr
                { st3 with status := ServiceStatus.error msg,
                           events := st3.events ++ [DockerEvent.error msg] }
          | Except.error e =>
              let msg := "[DockStack] Restart failed: " ++ e
              { st3 with status := ServiceStatus.error msg,
                         events := st3.events ++ [DockerEvent.error msg] }

/-- Rust str::split(sep) on a character list: every occurrence of the
separator starts a new piece, so the result is never empty and empty
pieces are preserved. -/
def split_chars (sep : Char) : List Char → List String
  | [] => [""]
  | c :: rest =>
      let r := split_chars sep rest
      if c = sep then "" :: r
      else
        match r with
        | s :: t => String.mk (c :: s.data) :: t
        | [] => [String.mk [c]]

/-- Rust str::split(sep) on a string. -/
def split_on_char (sep : Char) (s : String) : List String :=
  split_chars sep s.data

/-- The per-line parser of refresh_containers (manager.rs lines
424-434): split on the pipe delimiter, out-of-range fields default to
the empty string. -/
def parse_container_line (line : String) : ContainerInfo :=
  let parts := split_on_char '|' line
  { id := (parts.get? 0).getD "",
    name := (parts.get? 1).getD "",
    image := (parts.get? 2).getD "",
    status := (parts.get? 3).getD "",
    ports := (parts.get? 4).getD "",
    state := (parts.get? 5).getD "" }

/-- The stdout processing of refresh_containers (manager.rs lines
420-435): non-empty lines parsed into records. -/
def parse_ps_stdout (stdout : String) : List ContainerInfo :=
  ((split_on_char '\n' stdout).filter (fun l => l ≠ "")).map parse_container_line

/-- refresh_containers from manager.rs (lines 401-446), with the
outcome of the docker ps command passed as a parameter. -/
def refresh_containers (st : ManagerState) (p : ProjectConfig)
    (output : Except String String) : ManagerState :=
  match output with
  | Except.ok out =>
      let list := parse_ps_stdout out
      { st with containers := list,
                events := st.events ++ [DockerEvent.containerList list] }
  | Except.error e =>
      { st with events := st.events ++
          [DockerEvent.error ("Failed to list containers: " ++ e)] }

/-- Contents of a file on disk: plain text for the ancillary configs,
or the structured document whose serialization write_compose_file
stores as docker-compose.yml (YAML serialization is injective on the
documents generate_compose produces, so file equality coincides with
document equality). -/
inductive FileData where
  | text (s : String)
  | yamlDoc (y : Yaml)

/-- The filesystem fragment below the project directories: a map from
path to contents. -/
abbrev FileMap := List (String × FileData)

/-- fs::write — creates or overwrites the file at the path. -/
def fs_write : FileMap → String → FileData → FileMap
  | [], path, d => [(path, d)]
  | (q, e) :: t, path, d =>
      if q = path then (path, d) :: t else (q, e) :: fs_write t path d

/-- Contents currently stored at a path. -/
def fs_read : FileMap → String → Option FileData
  | [], _ => none
  | (q, e) :: t, path => if q = path then some e else fs_read t path

/-- HashMap::get on a settings map. -/
def settings_get (l : List (String × String)) (k : String) : Option String :=
  (l.find? (fun kv => kv.1 = k)).map (fun kv => kv.2)

/-- project.services.get(key).map_or(false, |s| s.enabled), the guard
used by write_compose_file (compose.rs lines 260, 265, 273). -/
def service_enabled (p : ProjectConfig) (k : String) : Bool :=
  ((services_get p.services k).map (fun s => s.enabled)).getD false

/-- The php.ini text built by write_php_config (compose.rs lines
287-295). The extensions setting is read by the source but never used
in the emitted content. -/
def php_ini_content (svc : ServiceConfig) : String :=
  let mem_limit := (settings_get svc.settings "memory_limit").getD "256M"
  "memory_limit = " ++ mem_limit ++ "\n" ++
  "upload_max_filesize = 100M\n" ++
  "post_max_size = 100M\n" ++
  "max_execution_time = 300\n" ++
  "display_errors = On\n" ++
  "error_reporting = E_ALL\n"

/-- The nginx default.conf text of write_nginx_config when the TLS
flag is set (compose.rs lines 310-337). -/
def nginx_config_ssl (domain : String) : String :=
  "server \x7b\n" ++
  "    listen 80;\n" ++
  "    server_name " ++ domain ++ ";\n" ++
  "    return 301 https://$server_name$request_uri;\n" ++
  "\x7d\n\n" ++
  "server \x7b\n" ++
  "    listen 443 ssl;\n" ++
  "    server_name " ++ domain ++ ";\n\n" ++
  "    ssl_certificate /etc/nginx/certs/server.crt;\n" ++
  "    ssl_certificate_key /etc/nginx/certs/server.key;\n\n" ++
  "    root /usr/share/nginx/html;\n" ++
  "    index index.php index.html;\n\n" ++
  "    location / \x7b\n" ++
  "        try_files $uri $uri/ /index.php?$query_string;\n" ++
  "    \x7d\n\n" ++
  "    location ~ \\.php$ \x7b\n" ++
  "        fastcgi_pass php:9000;\n" ++
  "        fastcgi_index index.php;\n" ++
  "        fastcgi_param SCRIPT_FILENAME $document_root$fastcgi_script_name;\n" ++
  "        include fastcgi_params;\n" ++
  "    \x7d\n" ++
  "\x7d\n"

/-- The nginx default.conf text of write_nginx_config when the TLS
flag is clear (compose.rs lines 339-357). -/
def nginx_config_plain (domain : String) : String :=
  "server \x7b\n" ++
  "    listen 80;\n" ++
  "    server_name " ++ domain ++ ";\n\n" ++
  "    root /usr/share/nginx/html;\n" ++
  "    index index.php index.html;\n\n" ++
  "    location / \x7b\n" ++
  "        try_files $uri $uri/ /index.php?$query_string;\n" ++
  "    \x7d\n\n" ++
  "    location ~ \\.php$ \x7b\n" ++
  "        fastcgi_pass php:9000;\n" ++
  "        fastcgi_index index.php;\n" ++
  "        fastcgi_param SCRIPT_FILENAME $document_root$fastcgi_script_name;\n" ++
  "        include fastcgi_params;\n" ++
  "    \x7d\n" ++
  "\x7d\n"

/-- write_nginx_config (compose.rs lines 305-363). -/
def nginx_config (p : ProjectConfig) : String :=
  if p.ssl_enabled then nginx_config_ssl p.domain else nginx_config_plain p.domain

/-- The httpd.conf text of write_apache_config (compose.rs lines
372-423). -/
def apache_config (domain : String) : String :=
  "\nServerRoot \"/usr/local/apache2\"\n" ++
  "Listen 80\n" ++
  "ServerName " ++ domain ++ "\n" ++
  "\nLoadModule mpm_event_module modules/mod_mpm_event.so\n" ++
  "LoadModule authz_core_module modules/mod_authz_core.so\n" ++
  "LoadModule authz_host_module modules/mod_authz_host.so\n" ++
  "LoadModule dir_module modules/mod_dir.so\n" ++
  "LoadModule mime_module modules/mod_mime.so\n" ++
  "LoadModule log_config_module modules/mod_log_config.so\n" ++
  "LoadModule unixd_module modules/mod_unixd.so\n" ++
  "LoadModule rewrite_module modules/mod_rewrite.so\n" ++
  "LoadModule proxy_module modules/mod_proxy.so\n" ++
  "LoadModule proxy_fcgi_module modules/mod_proxy_fcgi.so\n\n" ++
  "User daemon\n" ++
  "Group daemon\n\n" ++
  "ServerAdmin you@example.com\n" ++
  "DocumentRoot \"/usr/local/apache2/htdocs\"\n\n" ++
  "<Directory />\n" ++
  "    AllowOverride none\n" ++
  "    Require all denied\n" ++
  "</Directory>\n\n" ++
  "<Directory \"/usr/local/apache2/htdocs\">\n" ++
  "    Options Indexes FollowSymLinks\n" ++
  "    AllowOverride All\n" ++
  "    Require all granted\n" ++
  "</Directory>\n\n" ++
  "<IfModule dir_module>\n" ++
  "    DirectoryIndex index.php index.html\n" ++
  "</IfModule>\n\n" ++
  "<IfModule log_config_module>\n" ++
  "    LogFormat \"%h %l %u %t \\\"%r\\\" %>s %b \\\"%\x7bReferer\x7di\\\" \\\"%\x7bUser-Agent\x7di\\\"\" combined\n" ++
  "    CustomLog /proc/self/fd/1 combined\n" ++
  "    ErrorLog /proc/self/fd/2\n" ++
  "</IfModule>\n\n" ++
  "<Files \".ht*\">\n" ++
  "    Require all denied\n" ++
  "</Files>\n\n" ++
  "<FilesMatch \\.php$>\n" ++
  "    SetHandler \"proxy:fcgi://php:9000\"\n" ++
  "</FilesMatch>\n"

/-- The default index page written by write_default_index (compose.rs
lines 437-456). -/
def default_index_content (projectName : String) : String :=
  "<!DOCTYPE html>\n" ++
  "<html>\n" ++
  "<head>\n" ++
  "    <title>DockStack - " ++ projectName ++ "</title>\n" ++
  "    <style>\n" ++
  "        body \x7b font-family: sans-serif; display: flex; justify-content: center; align-items: center; height: 100vh; margin: 0; background: #f0f2f5; \x7d\n" ++
  "        .container \x7b text-align: center; padding: 2rem; background: white; border-radius: 8px; box-shadow: 0 2px 4px rgba(0,0,0,0.1); \x7d\n" ++
  "        h1 \x7b color: #1a73e8; \x7d\n" ++
  "        p \x7b color: #5f6368; \x7d\n" ++
  "    </style>\n" ++
  "</head>\n" ++
  "<body>\n" ++
  "    <div class=\"container\">\n" ++
  "        <h1>DockStack \u26A1</h1>\n" ++
  "        <p>Your service is up and running!</p>\n" ++
  "        <p>Project: <strong>" ++ projectName ++ "</strong></p>\n" ++
  "        <p><small>PHP Version: <?php echo phpversion(); ?></small></p>\n" ++
  "    </div>\n" ++
  "</body>\n" ++
  "</html>"

/-- write_php_config (compose.rs lines 280-303). The source unwraps the
php entry; it is only invoked when that entry exists and is enabled, so
the none branch is unreachable from write_compose_file. -/
def write_php_config (fs : FileMap) (p : ProjectConfig) : FileMap :=
  match services_get p.services "php" with
  | some svc => fs_write fs (p.directory ++ "/php/php.ini")
      (FileData.text (php_ini_content svc))
  | none => fs

/-- write_nginx_config (compose.rs lines 305-363). -/
def write_nginx_config_fs (fs : FileMap) (p : ProjectConfig) : FileMap :=
  fs_write fs (p.directory ++ "/nginx/default.conf") (FileData.text (nginx_config p))

/-- write_apache_config (compose.rs lines 365-427). -/
def write_apache_config_fs (fs : FileMap) (p : ProjectConfig) : FileMap :=
  fs_write fs (p.directory ++ "/apache/httpd.conf")
    (FileData.text (apache_config p.domain))

/-- write_default_index (compose.rs lines 429-461): writes the default
index.php only when neither index.php nor index.html exists yet. -/
def write_default_index (fs : FileMap) (p : ProjectConfig) : FileMap :=
  let www := p.directory ++ "/www"
  if (fs_read fs (www ++ "/index.php")).isNone &&
     (fs_read fs (www ++ "/index.html")).isNone then
    fs_write fs (www ++ "/index.php") (FileData.text (default_index_content p.name))
  else fs

/-- write_compose_file (compose.rs lines 251-278): writes the manifest,
then each ancillary config gated only on the enabled flag of the
corresponding service, and returns the manifest path. Directory
creation and I/O failure are not modelled; every write succeeds. -/
def write_compose_file (fs : FileMap) (p : ProjectConfig) : FileMap × String :=
  let path := p.directory ++ "/docker-compose.yml"
  let fs := fs_write fs path (FileData.yamlDoc (generate_compose p))
  let fs := if service_enabled p "nginx" then write_nginx_config_fs fs p else fs
  let fs := if service_enabled p "apache" then write_apache_config_fs fs p else fs
  let fs := write_default_index fs p
  let fs := if service_enabled p "php" then write_php_config fs p else fs
  (fs, path)

/-- A postgresql declaration carrying an explicit image override. -/
def c3_svc : ServiceConfig :=
  { enabled := true, port := 5432, version := "16", display_name := none,
    image := some "custom/pg:9", is_custom := false, is_locked := false,
    env_vars := [("POSTGRES_USER", "postgres")], settings := [] }

def c3_project : ProjectConfig :=
  { id := "default", name := "Default Project", directory := "/home/u/p",
    services := [("postgresql", c3_svc)], ssl_enabled := false,
    custom_ports := [], domain := "dockstack.test" }

/-- An enabled custom service under a key outside the fixed catalog. -/
def c4_svc : ServiceConfig :=
  { enabled := true, port := 1234, version := "latest",
    display_name := some "foo", image := some "foo-image", is_custom := true,
    is_locked := false, env_vars := [], settings := [] }

def c4_project : ProjectConfig :=
  { id := "p1", name := "P", directory := "/p",
    services := [("foo", c4_svc)], ssl_enabled := false,
    custom_ports := [], domain := "p.test" }

/-- An enabled admin-tool declaration for the C9 witness project. -/
def c9_en : ServiceConfig :=
  { enabled := true, port := 8081, version := "latest", display_name := none,
    image := none, is_custom := false, is_locked := false,
    env_vars := [], settings := [] }

def c9_dis : ServiceConfig := { c9_en with enabled := false }

/-- Witness project: mysql enabled, postgresql present but disabled. -/
def c9_project : ProjectConfig :=
  { id := "p9", name := "P9", directory := "/p9",
    services := [("phpmyadmin", c9_en), ("pgadmin", c9_en),
                 ("mysql", c9_en), ("postgresql", c9_dis)],
    ssl_enabled := false, custom_ports := [], domain := "p9.test" }

/-- An enabled php service declaration with is_locked set and a changed
memory_limit setting. -/
def c1_svc : ServiceConfig :=
  { enabled := true, port := 9000, version := "8.3-fpm", display_name := none,
    image := none, is_custom := false, is_locked := true,
    env_vars := [], settings := [("memory_limit", "512M")] }

def c1_project : ProjectConfig :=
  { id := "d", name := "D", directory := "/proj",
    services := [("php", c1_svc)], ssl_enabled := false,
    custom_ports := [], domain := "d.test" }

/-- The php.ini bytes as last written, before the settings change. -/
def c1_old : String :=
  "memory_limit = 256M\nupload_max_filesize = 100M\npost_max_size = 100M\n" ++
  "max_execution_time = 300\ndisplay_errors = On\nerror_reporting = E_ALL\n"

/-- The disk before the write: the php.ini from the previous write and
an existing index page. -/
def c1_fs : FileMap :=
  [("/proj/php/php.ini", FileData.text c1_old),
   ("/proj/www/index.php", FileData.text "legacy")]

/-- A manager state in its initial configuration. -/
def c2_state : ManagerState :=
  { status := ServiceStatus.stopped, logs := [], containers := [],
    docker_available := true, use_compose_plugin := true, events := [] }

/-- A project whose every service is disabled. -/
def c2_project : ProjectConfig :=
  { id := "p2", name := "P2", directory := "/p2",
    services := [("php", c9_dis), ("nginx", c9_dis)], ssl_enabled := false,
    custom_ports := [], domain := "p2.test" }

/-- A manager state whose rolling buffer already holds exactly 5000
lines. -/
def c6_state : ManagerState :=
  { status := ServiceStatus.running, logs := List.replicate 5000 "old",
    containers := [], docker_available := true, use_compose_plugin := true,
    events := [] }

/-- The raw engine output line of the specification example. -/
def c7_line : String :=
  "abc123|web|nginx:latest|Up 2 minutes|0.0.0.0:80->80/tcp|running"

theorem ymGet_mapInsert_self (m : YamlMap) (k : String) (v : Yaml) :
    ymGet (mapInsert m k v) k = some v := by
  induction m with
  | nil => simp [mapInsert, ymGet]
  | cons h t ih =>
      obtain ⟨k2, v2⟩ := h
      by_cases hk : k2 = k
      · subst hk; simp [mapInsert, ymGet]
      · simp [mapInsert, ymGet, hk, ih]

theorem ymGet_mapInsert_ne (m : YamlMap) (k k2 : String) (v : Yaml)
    (h : k ≠ k2) : ymGet (mapInsert m k v) k2 = ymGet m k2 := by
  induction m with
  | nil => simp [mapInsert, ymGet, h]
  | cons hd t ih =>
      obtain ⟨k3, v3⟩ := hd
      by_cases hk : k3 = k
      · subst hk; simp [mapInsert, ymGet, h]
      · simp [mapInsert, ymGet, hk, ih]

theorem add_service_key_ne (p : ProjectConfig) (nn : String)
    (acc : YamlMap × YamlMap) (kv : String × ServiceConfig) (name : String)
    (h : kv.1 ≠ name) :
    ymGet (add_service p nn acc kv).1 name = ymGet acc.1 name := by
  unfold add_service
  split
  · rfl
  · split
    · rfl
    · exact ymGet_mapInsert_ne acc.1 kv.1 name _ h

theorem add_service_stanza_none (p : ProjectConfig) (nn : String)
    (acc : YamlMap × YamlMap) (kv : String × ServiceConfig)
    (hst : service_stanza p nn kv.1 kv.2 = none) :
    add_service p nn acc kv = acc := by
  unfold add_service
  split
  · rfl
  · rw [hst]

theorem add_service_enabled_some (p : ProjectConfig) (nn : String)
    (acc : YamlMap × YamlMap) (name : String) (svc : ServiceConfig) (st : Yaml)
    (hen : svc.enabled = true) (hst : service_stanza p nn name svc = some st) :
    (add_service p nn acc (name, svc)).1 = mapInsert acc.1 name st := by
  unfold add_service
  simp [hen, hst]

theorem foldl_add_service_preserve (p : ProjectConfig) (nn : String)
    (l : List (String × ServiceConfig)) (acc : YamlMap × YamlMap) (name : String)
    (h : ∀ kv ∈ l, kv.1 ≠ name) :
    ymGet (l.foldl (add_service p nn) acc).1 name = ymGet acc.1 name := by
  induction l generalizing acc with
  | nil => rfl
  | cons kv t ih =>
      have hkv : kv.1 ≠ name := h kv (by simp)
      have ht : ∀ x ∈ t, x.1 ≠ name := fun x hx => h x (by simp [hx])
      rw [List.foldl_cons, ih _ ht]
      exact add_service_key_ne p nn acc kv name hkv

theorem foldl_add_service_mem (p : ProjectConfig) (nn : String)
    (l : List (String × ServiceConfig)) (acc : YamlMap × YamlMap)
    (name : String) (svc : ServiceConfig) (st : Yaml)
    (hnd : (l.map Prod.fst).Nodup) (hmem : (name, svc) ∈ l)
    (hen : svc.enabled = true)
    (hst : service_stanza p nn name svc = some st) :
    ymGet (l.foldl (add_service p nn) acc).1 name = some st := by
  induction l generalizing acc with
  | nil => cases hmem
  | cons kv t ih =>
      rw [List.foldl_cons]
      rcases List.mem_cons.mp hmem with heq | hmemt
      · subst heq
        rw [List.map_cons] at hnd
        rcases List.nodup_cons.mp hnd with ⟨hnotin, _⟩
        have hne : ∀ x ∈ t, x.1 ≠ name := by
          intro x hx hcontra
          have hx2 : x.1 ∈ t.map Prod.fst := List.mem_map_of_mem Prod.fst hx
          rw [hcontra] at hx2
          exact hnotin hx2
        rw [foldl_add_service_preserve p nn t _ name hne,
            add_service_enabled_some p nn acc name svc st hen hst]
        exact ymGet_mapInsert_self acc.1 name st
      · rw [List.map_cons] at hnd
        rcases List.nodup_cons.mp hnd with ⟨_, hnd2⟩
        exact ih _ hnd2 hmemt

theorem foldl_add_service_absent (p : ProjectConfig) (nn : String)
    (l : List (String × ServiceConfig)) (acc : YamlMap × YamlMap) (name : String)
    (h : ∀ kv ∈ l, kv.1 = name → service_stanza p nn kv.1 kv.2 = none) :
    ymGet (l.foldl (add_service p nn) acc).1 name = ymGet acc.1 name := by
  induction l generalizing acc with
  | nil => rfl
  | cons kv t ih =>
      have ht : ∀ x ∈ t, x.1 = name → service_stanza p nn x.1 x.2 = none :=
        fun x hx => h x (by simp [hx])
      rw [List.foldl_cons, ih _ ht]
      by_cases hk : kv.1 = name
      · rw [add_service_stanza_none p nn acc kv (h kv (by simp) hk)]
      · exact add_service_key_ne p nn acc kv name hk

theorem compose_service_entry_eq (p : ProjectConfig) (name : String) :
    compose_service_entry p name = ymGet (compose_services p) name := by
  unfold compose_service_entry generate_compose compose_services
  by_cases hv :
      (p.services.foldl (add_service p ("dockstack_" ++ p.id)) ([], [])).2.isEmpty <;>
    simp [hv, mapInsert, ymGet]

theorem ymGet_ite_insert_ne (c : Bool) (m : YamlMap) (k k2 : String) (v : Yaml)
    (h : k ≠ k2) :
    ymGet (if c then mapInsert m k v else m) k2 = ymGet m k2 := by
  cases c
  · rfl
  · exact ymGet_mapInsert_ne m k k2 v h

theorem ymGet_ite_insert_self (c : Bool) (m : YamlMap) (k : String) (v : Yaml) :
    ymGet (if c then mapInsert m k v else m) k =
      (if c then some v else ymGet m k) := by
  cases c
  · rfl
  · simp [ymGet_mapInsert_self]

theorem service_stanza_not_catalog (p : ProjectConfig) (nn : String)
    (name : String) (svc : ServiceConfig) (h : catalog_image name = none) :
    service_stanza p nn name svc = none := by
  unfold service_stanza
  split <;> simp_all [catalog_image]

theorem service_stanza_image (p : ProjectConfig) (nn : String) (name : String)
    (svc : ServiceConfig) (img : String) (hcat : catalog_image name = some img) :
    ∃ s, service_stanza p nn name svc = some (Yaml.map s) ∧
      ymGet s "image" = some (Yaml.str (img ++ ":" ++ svc.version)) := by
  unfold catalog_image at hcat
  split_ifs at hcat with h1 h2 h3 h4 h5 h6 h7 h8 h9
  · subst h1; injection hcat with h; subst h; exact ⟨_, rfl, rfl⟩
  · subst h2; injection hcat with h; subst h; exact ⟨_, rfl, rfl⟩
  · subst h3; injection hcat with h; subst h; exact ⟨_, rfl, rfl⟩
  · subst h4; injection hcat with h; subst h; exact ⟨_, rfl, rfl⟩
  · subst h5; injection hcat with h; subst h; exact ⟨_, rfl, rfl⟩
  · subst h6; injection hcat with h; subst h
    refine ⟨_, rfl, ?_⟩
    rw [ymGet_ite_insert_ne]
    · rfl
    · decide
  · subst h7; injection hcat with h; subst h
    refine ⟨_, rfl, ?_⟩
    rw [ymGet_ite_insert_ne]
    · rfl
    · decide
  · subst h8; injection hcat with h; subst h; exact ⟨_, rfl, rfl⟩
  · subst h9; injection hcat with h; subst h; exact ⟨_, rfl, rfl⟩

theorem service_stanza_phpmyadmin_dep (p : ProjectConfig) (nn : String)
    (svc : ServiceConfig) :
    ∃ s, service_stanza p nn "phpmyadmin" svc = some (Yaml.map s) ∧
      ymGet s "depends_on" =
        (if mysql_dep_enabled p then some (Yaml.seq [Yaml.str "mysql"]) else none) := by
  refine ⟨_, rfl, ?_⟩
  rw [ymGet_ite_insert_self]
  cases hc : mysql_dep_enabled p <;> simp [hc] <;> rfl

theorem service_stanza_pgadmin_dep (p : ProjectConfig) (nn : String)
    (svc : ServiceConfig) :
    ∃ s, service_stanza p nn "pgadmin" svc = some (Yaml.map s) ∧
      ymGet s "depends_on" =
        (if pg_dep_enabled p then some (Yaml.seq [Yaml.str "postgresql"]) else none) := by
  refine ⟨_, rfl, ?_⟩
  rw [ymGet_ite_insert_self]
  cases hc : pg_dep_enabled p <;> simp [hc] <;> rfl

theorem compose_entry_of_stanza (p : ProjectConfig) (name : String)
    (svc : ServiceConfig) (st : Yaml)
    (hnd : (p.services.map Prod.fst).Nodup) (hmem : (name, svc) ∈ p.services)
    (hen : svc.enabled = true)
    (hst : service_stanza p ("dockstack_" ++ p.id) name svc = some st) :
    compose_service_entry p name = some st := by
  rw [compose_service_entry_eq]
  exact foldl_add_service_mem p ("dockstack_" ++ p.id) p.services ([], [])
    name svc st hnd hmem hen hst

/-- Claim C3 counterexample: for the enabled catalog service
"postgresql" declaring the explicit override image = some "custom/pg:9",
generate_compose still emits image "postgres:16" built from the catalog
image and the version tag — the override is ignored, contradicting the
claim that the stanza image equals the override when one is declared. -/
theorem claim_C3_counterexample :
    stanza_field (compose_service_entry c3_project "postgresql") "image"
      = some (Yaml.str "postgres:16")
    ∧ c3_svc.image = some "custom/pg:9"
    ∧ Yaml.str "postgres:16" ≠ Yaml.str "custom/pg:9" :=
  ⟨rfl, rfl, by simp⟩

/-- Claim C3 (amended): for every enabled known catalog service, the
generated stanza's image field equals "<catalog-image>:<version>" built
from the fixed catalog image and the declared version tag,
unconditionally — any explicit image override (image = Some(..)) is
ignored by generate_compose for catalog keys. -/
theorem claim_C3 (p : ProjectConfig) (name : String) (svc : ServiceConfig)
    (img : String) (hnd : (p.services.map Prod.fst).Nodup)
    (hmem : (name, svc) ∈ p.services) (hen : svc.enabled = true)
    (hcat : catalog_image name = some img) :
    stanza_field (compose_service_entry p name) "image"
      = some (Yaml.str (img ++ ":" ++ svc.version)) := by
  obtain ⟨s, hs, himg⟩ :=
    service_stanza_image p ("dockstack_" ++ p.id) name svc img hcat
  rw [compose_entry_of_stanza p name svc _ hnd hmem hen hs]
  exact himg

/-- Witness for claim C3: the amended theorem evaluated on the concrete
override-carrying project. -/
theorem claim_C3_witness :
    stanza_field (compose_service_entry c3_project "postgresql") "image"
      = some (Yaml.str ("postgres" ++ ":" ++ c3_svc.version)) :=
  claim_C3 c3_project "postgresql" c3_svc "postgres"
    (by decide) (by decide) (by decide) (by decide)

/-- Claim C4 counterexample: for the enabled unknown key "foo",
generate_compose emits no service stanza at all — the services section
has no "foo" entry, contradicting the claim that a generic stanza with
image, ports, volumes and network entries is emitted. -/
theorem claim_C4_counterexample :
    compose_service_entry c4_project "foo" = none
    ∧ (services_get c4_project.services "foo").map (fun s => s.enabled)
        = some true :=
  ⟨rfl, rfl⟩

/-- Claim C4 (amended): for every service whose key is not in the fixed
catalog (unknown custom keys, and the synthetic "ssl" key),
generate_compose emits no stanza whatsoever: the loop's default arm
does nothing, so the key never appears in the services section. -/
theorem claim_C4 (p : ProjectConfig) (name : String)
    (hcat : catalog_image name = none) :
    compose_service_entry p name = none := by
  rw [compose_service_entry_eq]
  unfold compose_services
  rw [foldl_add_service_absent p ("dockstack_" ++ p.id) p.services ([], []) name
    (fun kv _ hk => service_stanza_not_catalog p _ kv.1 kv.2 (by rw [hk]; exact hcat))]
  rfl

/-- Witness for claim C4: the amended theorem evaluated on the concrete
custom-keyed project. -/
theorem claim_C4_witness :
    catalog_image "foo" = none ∧ compose_service_entry c4_project "foo" = none :=
  ⟨rfl, claim_C4 c4_project "foo" rfl⟩

/-- Claim C9 (confirmed): generate_compose emits a depends_on entry for
the admin tools iff their backing database is enabled in the same
project — phpmyadmin depends on [mysql] iff the mysql service exists
and is enabled, pgadmin depends on [postgresql] iff the postgresql
service exists and is enabled; otherwise no depends_on key appears in
those stanzas. mysql_dep_enabled and pg_dep_enabled are precisely the
exists-and-enabled guards of compose.rs lines 160 and 187. -/
theorem claim_C9 (p : ProjectConfig) (hnd : (p.services.map Prod.fst).Nodup) :
    (∀ svc : ServiceConfig, ("phpmyadmin", svc) ∈ p.services →
      svc.enabled = true →
      stanza_field (compose_service_entry p "phpmyadmin") "depends_on" =
        (if mysql_dep_enabled p then some (Yaml.seq [Yaml.str "mysql"]) else none))
    ∧ (∀ svc : ServiceConfig, ("pgadmin", svc) ∈ p.services →
      svc.enabled = true →
      stanza_field (compose_service_entry p "pgadmin") "depends_on" =
        (if pg_dep_enabled p then some (Yaml.seq [Yaml.str "postgresql"]) else none)) := by
  constructor
  · intro svc hmem hen
    obtain ⟨s, hs, hdep⟩ :=
      service_stanza_phpmyadmin_dep p ("dockstack_" ++ p.id) svc
    rw [compose_entry_of_stanza p "phpmyadmin" svc _ hnd hmem hen hs]
    exact hdep
  · intro svc hmem hen
    obtain ⟨s, hs, hdep⟩ :=
      service_stanza_pgadmin_dep p ("dockstack_" ++ p.id) svc
    rw [compose_entry_of_stanza p "pgadmin" svc _ hnd hmem hen hs]
    exact hdep

/-- Witness for claim C9: on the concrete project, phpmyadmin gets its
depends_on (mysql is enabled) and pgadmin gets none (postgresql is
present but disabled). -/
theorem claim_C9_witness :
    mysql_dep_enabled c9_project = true
    ∧ pg_dep_enabled c9_project = false
    ∧ stanza_field (compose_service_entry c9_project "phpmyadmin") "depends_on"
        = (if mysql_dep_enabled c9_project then some (Yaml.seq [Yaml.str "mysql"])
           else none)
    ∧ stanza_field (compose_service_entry c9_project "pgadmin") "depends_on"
        = (if pg_dep_enabled c9_project then some (Yaml.seq [Yaml.str "postgresql"])
           else none) :=
  ⟨rfl, rfl,
   (claim_C9 c9_project (by decide)).1 c9_en (by decide) (by decide),
   (claim_C9 c9_project (by decide)).2 c9_en (by decide) (by decide)⟩

/-- Claim C1 (code bug): write_compose_file regenerates the php.ini of
a service whose is_locked flag is true, changing its on-disk bytes.
The field comment at config/mod.rs line 52 and the UI lock tooltip
(ui/panels.rs line 675) both document that locked services are not
regenerated, and the spec states write must never alter a locked
service's config file, but write_compose_file (compose.rs 251-278)
never consults is_locked: the php config write is gated only on the
enabled flag. -/
theorem claim_C1_code_bug :
    (services_get c1_project.services "php").map (fun s => s.is_locked) = some true
    ∧ fs_read c1_fs "/proj/php/php.ini" = some (FileData.text c1_old)
    ∧ fs_read (write_compose_file c1_fs c1_project).1 "/proj/php/php.ini"
        = some (FileData.text (php_ini_content c1_svc))
    ∧ php_ini_content c1_svc ≠ c1_old :=
  ⟨rfl, rfl, rfl, by decide⟩

/-- Claim C2 (confirmed): when zero services are enabled, start_services
rejects immediately: the resulting state is independent of the
compose-write result and of any command outcome (so no external process
or worker is ever involved), the log buffer and inventory are
untouched, the shared status ends in Error, and exactly one Failure
event is emitted. -/
theorem claim_C2 (st : ManagerState) (p : ProjectConfig)
    (composeRes : Except String String) (outcome : SpawnOutcome)
    (h : (p.services.filter (fun kv => kv.2.enabled)).length = 0) :
    start_services st p composeRes outcome =
      { st with status := ServiceStatus.error no_services_msg,
                events := st.events ++ [DockerEvent.error no_services_msg] } := by
  unfold start_services
  rw [if_pos h]

/-- Witness for claim C2: the all-disabled project evaluated concretely. -/
theorem claim_C2_witness :
    (c2_project.services.filter (fun kv => kv.2.enabled)).length = 0
    ∧ start_services c2_state c2_project (Except.ok "/p2/docker-compose.yml")
        (SpawnOutcome.exited true [] "exit status: 0") =
      { c2_state with status := ServiceStatus.error no_services_msg,
                      events := c2_state.events ++
                        [DockerEvent.error no_services_msg] } :=
  ⟨by decide,
   claim_C2 c2_state c2_project (Except.ok "/p2/docker-compose.yml")
     (SpawnOutcome.exited true [] "exit status: 0") (by decide)⟩

/-- Claim C5 counterexample: a restart whose stop phase fails to launch
ends with the shared status still Stopping — not Error(reason) as the
claim requires for a failed phase — while emitting exactly one Failure
event and never reaching the start phase. -/
theorem claim_C5_counterexample :
    (restart_services c2_state c4_project
        (Except.error "No such file or directory (os error 2)")
        (Except.ok "/p/docker-compose.yml") (Except.ok ⟨true, ""⟩)).status
      = ServiceStatus.stopping
    ∧ (restart_services c2_state c4_project
        (Except.error "No such file or directory (os error 2)")
        (Except.ok "/p/docker-compose.yml") (Except.ok ⟨true, ""⟩)).events
      = [DockerEvent.log "[DockStack] Restarting services...",
         DockerEvent.error
           "[DockStack] Stop failed during restart: No such file or directory (os error 2)"] :=
  ⟨rfl, rfl⟩

/-- Claim C5 (amended): if the stop phase's command fails to launch,
restart aborts with exactly one Failure event, the manifest rewrite and
start phase are never attempted (the result is independent of their
outcomes) — but the shared status then remains Stopping rather than
ending in Error; the same holds when the manifest rewrite fails. The
status ends in Error(reason) only when the start phase itself fails,
either to launch or with a non-zero exit. -/
theorem claim_C5 (st : ManagerState) (p : ProjectConfig) (e e2 e3 : String)
    (writeRes writeRes2 : Except String String)
    (startRes startRes2 : Except String CmdOutput)
    (out1 : CmdOutput) (path stderr2 : String) :
    (restart_services st p (Except.error e) writeRes startRes).status
      = ServiceStatus.stopping
    ∧ (restart_services st p (Except.error e) writeRes startRes).events
      = st.events ++ [DockerEvent.log "[DockStack] Restarting services..."]
        ++ [DockerEvent.error ("[DockStack] Stop failed during restart: " ++ e)]
    ∧ restart_services st p (Except.error e) writeRes startRes
      = restart_services st p (Except.error e) writeRes2 startRes2
    ∧ (restart_services st p (Except.ok out1) (Except.error e3) startRes).status
      = ServiceStatus.stopping
    ∧ restart_services st p (Except.ok out1) (Except.error e3) startRes
      = restart_services st p (Except.ok out1) (Except.error e3) startRes2
    ∧ (restart_services st p (Except.ok out1) (Except.ok path)
        (Except.error e2)).status
      = ServiceStatus.error ("[DockStack] Restart failed: " ++ e2)
    ∧ (restart_services st p (Except.ok out1) (Except.ok path)
        (Except.ok ⟨false, stderr2⟩)).status
      = ServiceStatus.error ("[DockStack] Restart failed: " ++ stderr2) :=
  ⟨rfl, rfl, rfl, rfl, rfl, rfl, rfl⟩

/-- Claim C10 (confirmed): the synchronous stop variant never modifies
the shared status (in particular it is not set to Stopped even when the
down command succeeds), the container inventory, the compose-dialect
flag or the availability flag, for every project and every outcome of
the external command: it only appends one announcement line to the log
buffer and emits one Log event. -/
theorem claim_C10 (st : ManagerState) (p : ProjectConfig)
    (res : Except String Bool) :
    (stop_services_sync st p res).status = st.status
    ∧ (stop_services_sync st p res).containers = st.containers
    ∧ (stop_services_sync st p res).use_compose_plugin = st.use_compose_plugin
    ∧ (stop_services_sync st p res).docker_available = st.docker_available
    ∧ (stop_services_sync st p res).logs
        = st.logs ++ ["[DockStack] Stopping services before exit..."]
    ∧ (stop_services_sync st p res).events
        = st.events ++ [DockerEvent.log "[DockStack] Stopping services before exit..."] :=
  ⟨rfl, rfl, rfl, rfl, rfl, rfl⟩

/-- Claim C6 counterexample: the appends performed by start_services
(manager.rs lines 118, 130, 157, 167 via push_log) never trim, so a
single start at a buffer of 5000 lines leaves it at 5003 — above the
high-water mark, contradicting the claim that the buffer holds at most
5000 lines after any single append. -/
theorem c6_state_logs_length : c6_state.logs.length = 5000 :=
  List.length_replicate 5000 "old"

theorem claim_C6_counterexample :
    ((start_services c6_state c3_project (Except.ok "/p/docker-compose.yml")
        (SpawnOutcome.exited true [] "exit status: 0")).logs).length = 5003
    ∧ 5000 < 5003 := by
  constructor
  · unfold start_services
    rw [if_neg (by decide)]
    show (push_log (push_log (push_log c6_state.logs _) _) _).length = 5003
    simp [push_log, List.length_append, c6_state_logs_length]
  · norm_num

/-- Claim C6 (amended): the trimmed append used by stream_logs does
maintain the invariant — after it, the buffer holds at most 5000 lines,
and an append that would exceed 5000 trims in one batch to exactly the
low-water mark of 3000. The plain appends used by start, stop and
restart do not trim, so the claimed invariant fails for those (see the
counterexample); it holds precisely for the log-streaming append. -/
theorem claim_C6 (st : ManagerState) (line : String) :
    (stream_log_line st line).logs.length ≤ 5000
    ∧ (5000 < (st.logs ++ [line]).length →
        (stream_log_line st line).logs.length = 3000) := by
  show (push_log_trimmed st.logs line).length ≤ 5000
    ∧ (5000 < (st.logs ++ [line]).length →
        (push_log_trimmed st.logs line).length = 3000)
  simp only [push_log_trimmed]
  by_cases h : (st.logs ++ [line]).length > 5000
  · rw [if_pos h, List.length_drop]
    exact ⟨by omega, fun _ => by omega⟩
  · rw [if_neg h]
    exact ⟨by omega, fun hh => absurd hh (by omega)⟩

/-- Witness for claim C6: a streamed line arriving at a 5000-line
buffer trims it to exactly 3000. -/
theorem claim_C6_witness :
    5000 < (c6_state.logs ++ ["next"]).length
    ∧ (stream_log_line c6_state "next").logs.length = 3000 :=
  ⟨by simp [List.length_append, c6_state_logs_length],
   (claim_C6 c6_state "next").2
     (by simp [List.length_append, c6_state_logs_length])⟩

/-- Claim C7 (confirmed): inventory parsing splits each non-empty line
on the pipe delimiter into the six ContainerRecord fields, missing
trailing fields defaulting to the empty string; the specification
example parses to a record with name "web" and state "running". -/
theorem claim_C7 :
    parse_container_line c7_line =
      { id := "abc123", name := "web", image := "nginx:latest",
        status := "Up 2 minutes", ports := "0.0.0.0:80->80/tcp",
        state := "running" }
    ∧ parse_ps_stdout (c7_line ++ "\n") =
      [{ id := "abc123", name := "web", image := "nginx:latest",
         status := "Up 2 minutes", ports := "0.0.0.0:80->80/tcp",
         state := "running" }]
    ∧ ∀ line : String,
        ((split_on_char '|' line).length ≤ 1 → (parse_container_line line).name = "")
        ∧ ((split_on_char '|' line).length ≤ 2 → (parse_container_line line).image = "")
        ∧ ((split_on_char '|' line).length ≤ 3 → (parse_container_line line).status = "")
        ∧ ((split_on_char '|' line).length ≤ 4 → (parse_container_line line).ports = "")
        ∧ ((split_on_char '|' line).length ≤ 5 → (parse_container_line line).state = "") := by
  refine ⟨by decide, by decide, ?_⟩
  intro line
  refine ⟨?_, ?_, ?_, ?_, ?_⟩
  · intro h
    show (((split_on_char '|' line).get? 1).getD "") = ""
    rw [List.get?_eq_none.mpr h]
    rfl
  · intro h
    show (((split_on_char '|' line).get? 2).getD "") = ""
    rw [List.get?_eq_none.mpr h]
    rfl
  · intro h
    show (((split_on_char '|' line).get? 3).getD "") = ""
    rw [List.get?_eq_none.mpr h]
    rfl
  · intro h
    show (((split_on_char '|' line).get? 4).getD "") = ""
    rw [List.get?_eq_none.mpr h]
    rfl
  · intro h
    show (((split_on_char '|' line).get? 5).getD "") = ""
    rw [List.get?_eq_none.mpr h]
    rfl

/-- Witness for claim C7: a two-field line leaves the state field
empty. -/
theorem claim_C7_witness :
    (split_on_char '|' "abc123|web").length ≤ 5
    ∧ (parse_container_line "abc123|web").state = "" :=
  ⟨by decide, (claim_C7.2.2 "abc123|web").2.2.2.2 (by decide)⟩

theorem push_lines_logs (st : ManagerState) (lines : List String) :
    (push_lines st lines).logs = st.logs ++ lines := by
  induction lines generalizing st with
  | nil => simp [push_lines]
  | cons a t ih =>
      show (push_lines
        { st with logs := push_log st.logs a,
                  events := st.events ++ [DockerEvent.log a] } t).logs
        = st.logs ++ (a :: t)
      rw [ih]
      simp [push_log]

/-- Claim C8 (amended): start failures follow the two-tier discipline —
in every failing mode (non-zero exit, launch failure, wait failure) the
detailed diagnostic (combined stderr or exit code, or the launch or
wait error) is appended to the log buffer while the status carries only
a terse see-the-logs summary. Stop and restart failures do not: in
every failing mode of stop (non-zero exit, launch failure, wait
failure) and of restart (stop-phase launch failure, manifest-write
failure, start-phase launch failure, start-phase non-zero exit) the
detailed message is placed in the status string and/or the Failure
event only, and is never appended to the log buffer, whose only
additions are the announcement line and any streamed stderr lines. -/
theorem claim_C8 (st : ManagerState) (p : ProjectConfig) (path : String)
    (lines : List String) (exitStr e le we e2 e3 : String)
    (out1 : CmdOutput) (writeRes : Except String String)
    (startRes : Except String CmdOutput)
    (h : (p.services.filter (fun kv => kv.2.enabled)).length ≠ 0) :
    ((start_services st p (Except.ok path)
        (SpawnOutcome.exited false lines exitStr)).status
      = ServiceStatus.error "Failed to start. Check Logs tab."
     ∧ (start_services st p (Except.ok path)
          (SpawnOutcome.exited false lines exitStr)).logs
      = st.logs ++ ["[DockStack] Compose file written: " ++ path,
                    "[DockStack] Starting services..."] ++ lines
        ++ [start_fail_combined st.use_compose_plugin lines exitStr])
    ∧ ((start_services st p (Except.ok path)
          (SpawnOutcome.launchFailure le)).status
      = ServiceStatus.error "Exec error. Check Logs."
     ∧ (start_services st p (Except.ok path)
          (SpawnOutcome.launchFailure le)).logs
      = st.logs ++ ["[DockStack] Compose file written: " ++ path,
                    "[DockStack] Starting services..."]
        ++ ["[DockStack] Failed to execute docker compose command ("
            ++ compose_program st.use_compose_plugin ++ "): " ++ le])
    ∧ ((start_services st p (Except.ok path)
          (SpawnOutcome.waitFailure lines we)).status
      = ServiceStatus.error "Process error. Check Logs."
     ∧ (start_services st p (Except.ok path)
          (SpawnOutcome.waitFailure lines we)).logs
      = st.logs ++ ["[DockStack] Compose file written: " ++ path,
                    "[DockStack] Starting services..."] ++ lines
        ++ ["[DockStack] Failed to wait for docker process: " ++ we])
    ∧ ((stop_services st p (SpawnOutcome.exited false lines exitStr)).status
      = ServiceStatus.error ("[DockStack] docker compose down failed: " ++ exitStr)
     ∧ (stop_services st p (SpawnOutcome.exited false lines exitStr)).logs
      = st.logs ++ ["[DockStack] Stopping services..."] ++ lines)
    ∧ ((stop_services st p (SpawnOutcome.launchFailure le)).status
      = ServiceStatus.error ("[DockStack] Failed to stop docker compose: " ++ le)
     ∧ (stop_services st p (SpawnOutcome.launchFailure le)).logs
      = st.logs ++ ["[DockStack] Stopping services..."])
    ∧ ((stop_services st p (SpawnOutcome.waitFailure lines we)).status
      = ServiceStatus.error ("[DockStack] Wait error: " ++ we)
     ∧ (stop_services st p (SpawnOutcome.waitFailure lines we)).logs
      = st.logs ++ ["[DockStack] Stopping services..."] ++ lines)
    ∧ ((restart_services st p (Except.error e) writeRes startRes).logs
      = st.logs ++ ["[DockStack] Restarting services..."]
     ∧ (restart_services st p (Except.error e) writeRes startRes).events
      = st.events ++ [DockerEvent.log "[DockStack] Restarting services..."]
        ++ [DockerEvent.error ("[DockStack] Stop failed during restart: " ++ e)])
    ∧ ((restart_services st p (Except.ok out1) (Except.error e3) startRes).logs
      = st.logs ++ ["[DockStack] Restarting services..."]
     ∧ (restart_services st p (Except.ok out1) (Except.error e3) startRes).events
      = st.events ++ [DockerEvent.log "[DockStack] Restarting services..."]
        ++ [DockerEvent.error ("[DockStack] Error writing compose file: " ++ e3)])
    ∧ ((restart_services st p (Except.ok out1) (Except.ok path)
          (Except.error e2)).status
      = ServiceStatus.error ("[DockStack] Restart failed: " ++ e2)
     ∧ (restart_services st p (Except.ok out1) (Except.ok path)
          (Except.error e2)).logs
      = st.logs ++ ["[DockStack] Restarting services..."])
    ∧ ((restart_services st p (Except.ok out1) (Except.ok path)
          (Except.ok ⟨false, e⟩)).status
      = ServiceStatus.error ("[DockStack] Restart failed: " ++ e)
     ∧ (restart_services st p (Except.ok out1) (Except.ok path)
          (Except.ok ⟨false, e⟩)).logs
      = st.logs ++ ["[DockStack] Restarting services..."]) := by
  unfold start_services
  simp only [if_neg h]
  refine ⟨⟨?_, ?_⟩, ⟨?_, ?_⟩, ⟨?_, ?_⟩, ⟨?_, ?_⟩, ⟨?_, ?_⟩, ⟨?_, ?_⟩,
          ⟨?_, ?_⟩, ⟨?_, ?_⟩, ⟨?_, ?_⟩, ⟨?_, ?_⟩⟩ <;>
    first
      | trivial
      | simp [stop_services, restart_services, push_lines_logs, push_log,
              List.append_assoc]

/-- Witness for claim C8: the start-failure two-tier shape on a
concrete project. -/
theorem claim_C8_witness :
    (c3_project.services.filter (fun kv => kv.2.enabled)).length ≠ 0
    ∧ (start_services c2_state c3_project (Except.ok "/p/docker-compose.yml")
        (SpawnOutcome.exited false ["boom"] "exit status: 1")).status
      = ServiceStatus.error "Failed to start. Check Logs tab." :=
  ⟨by decide,
   (claim_C8 c2_state c3_project "/p/docker-compose.yml" ["boom"]
     "exit status: 1" "x" "y" "z" "w" "v" ⟨true, ""⟩ (Except.ok "/p")
     (Except.ok ⟨true, ""⟩) (by decide)).1.1⟩

/-- Claim C8 counterexample: a failing stop reports its detailed
diagnostic (the exit status) only through the status string and the
Failure event; the detail is absent from the log buffer, contradicting
the claim that a failure is never reported only through the status
string. -/
theorem claim_C8_counterexample :
    (stop_services c2_state c4_project
        (SpawnOutcome.exited false [] "exit status: 1")).status
      = ServiceStatus.error "[DockStack] docker compose down failed: exit status: 1"
    ∧ "[DockStack] docker compose down failed: exit status: 1"
        ∉ (stop_services c2_state c4_project
            (SpawnOutcome.exited false [] "exit status: 1")).logs :=
  ⟨rfl, by decide⟩
